import Mathlib

/-!
Verification development for the filebase.storage client library
(`src/lib.js`).  The JavaScript source is shallowly embedded: each
relevant function is translated into an executable Lean definition and
the specification's claims are settled as theorems about those
definitions.  JavaScript numbers that carry byte counts in the progress
handler are modelled as rationals (`ℚ`): the behaviours at issue (the
`0.01` initialisation offset, sign of deltas, telescoping sums) are
invariant under that abstraction.
-/

/- ===================================================================
   parseToken — src/lib.js lines 56-91.

   A token is either an array (whose elements may be `undefined`,
   modelled as `Option String`) or a base64-encoded string.  The string
   branch decodes (`Buffer.from(_, 'base64').toString('ascii')`, kept
   abstract as a `decode` parameter producing the decoded character
   list) and splits on `':'`.
   =================================================================== -/

/-- Input to `parseToken`: the array form or the encoded-string form. -/
inductive TokenInput where
  | arr : List (Option String) → TokenInput
  | str : String → TokenInput

/-- Result of `parseToken`: the credential array and the bucket. -/
structure ParseTokenResult where
  credentials : List (Option String)
  bucket : String
deriving DecidableEq

/-- JavaScript `array[i]` for arrays with possibly-undefined elements:
out-of-bounds and explicit `undefined` both yield `undefined`. -/
def jsIndex (l : List (Option String)) (i : Nat) : Option String :=
  (l[i]?).join

/-- JavaScript `String.prototype.split` with a single-character
separator: `"".split(sep)` is `[""]`, and every separator occurrence
opens a new field. -/
def jsSplit (sep : Char) : List Char → List (List Char)
  | [] => [[]]
  | c :: rest =>
    let r := jsSplit sep rest
    if c = sep then [] :: r
    else
      match r with
      | [] => [[c]]
      | hd :: tl => (c :: hd) :: tl

/-- Embedding of `parseToken` (src/lib.js lines 56-91).  The array
branch checks only `tokenToParse[2]`; the string branch decodes, splits
on `':'`, and checks indices 0, 1, 2 in the source's order (the
`typeof token[0] !== "string"` check corresponds to index 0 being
absent, since every present element of a split result is a string). -/
def parseToken (decode : String → List Char) : TokenInput → Except String ParseTokenResult
  | .arr t =>
    match jsIndex t 2 with
    | none => .error "No Bucket Found"
    | some b => .ok ⟨t, b⟩
  | .str s =>
    let token := (jsSplit ':' (decode s)).map List.asString
    match token[0]? with
    | none => .error "Invalid Access Key"
    | some _ =>
      match token[1]? with
      | none => .error "Invalid Secret Key"
      | some _ =>
        match token[2]? with
        | none => .error "No Bucket Found"
        | some b => .ok ⟨token.map some, b⟩

/- ===================================================================
   storeCar progress handler — src/lib.js lines 230-239.

     let storedBytes = 0.01
     let progressBytes = storedBytes
     parallelUploads3.on("httpUploadProgress", (progress) => {
       if (typeof progress.loaded !== "number") {
         throw new Error(`Expected Number for Loaded Progress`);
       }
       progressBytes = progress.loaded - storedBytes;
       storedBytes = progress.loaded;
       onStoredChunk && onStoredChunk(progressBytes)
     });

   A transport run is a list of progress ticks; `none` models a
   non-numeric `progress.loaded`.  The result is the list of values
   passed to `onStoredChunk`, or the thrown error.
   =================================================================== -/

/-- One pass of the `httpUploadProgress` handler over a list of ticks,
threading the mutable `storedBytes` accumulator. -/
def processTicks : List (Option ℚ) → ℚ → Except String (List ℚ)
  | [], _ => .ok []
  | none :: _, _ => .error "Expected Number for Loaded Progress"
  | some l :: rest, storedBytes =>
    match processTicks rest l with
    | .error e => .error e
    | .ok out => .ok ((l - storedBytes) :: out)

/-- The sequence of values passed to `onStoredChunk` by `storeCar`'s
progress handler, starting from the source's `storedBytes = 0.01`. -/
def FilebaseClient.storeCarProgress (ticks : List (Option ℚ)) : Except String (List ℚ) :=
  processTicks ticks (1/100)

/-- Closed form of the handler's outputs on an all-numeric tick list:
successive differences against the previous cumulative value. -/
def progressDeltas (storedBytes : ℚ) : List ℚ → List ℚ
  | [] => []
  | l :: rest => (l - storedBytes) :: progressDeltas l rest

/- ===================================================================
   Head-object responses; storeCar completion — src/lib.js lines
   241-253; status — lines 321-385.
   =================================================================== -/

/-- Shape of the remote store's head-object response (`carHeader`):
an optional custom-metadata map, an optional numeric `ContentLength`
(`none` models a non-numeric value) and an optional `LastModified`. -/
structure HeadObjectResponse where
  metadata : Option (List (String × String))
  contentLength : Option Int
  lastModified : Option Nat
deriving DecidableEq

/-- The `carHeader.Metadata['cid']` lookup: `none` when `Metadata` is
undefined or carries no `cid` key. -/
def metadataCid (head : HeadObjectResponse) : Option String :=
  head.metadata.bind fun m => (m.find? fun p => p.1 == "cid").map (·.2)

/-- Value returned by `storeCar` after the upload (lines 249-253):
the remote `cid` metadata tag, or the missing-remote-CID error.  Note
that `storeCar` never receives the locally computed root, so the
returned string is whatever the remote store reports. -/
def storeCarReturnedCid (head : HeadObjectResponse) : Except String String :=
  match metadataCid head with
  | none => .error "No CID Returned from Remote"
  | some c => .ok c

/-- Observable remote interactions of one `storeCar` call. -/
inductive StoreCarEvent where
  | uploadParts (objectKey : String)
  | headRequest (objectKey : String)
deriving DecidableEq

/-- Embedding of the tail of `FilebaseClient.storeCar` (lines 211-253):
the multipart upload for `objectName` completes (`await
parallelUploads3.done()`), then a `HeadObjectCommand` for the same key
is sent, and the remote `cid` tag is extracted.  Returns the issued
remote requests in order together with the call's result. -/
def FilebaseClient.storeCar (objectName : String) (head : HeadObjectResponse) :
    List StoreCarEvent × Except String String :=
  ([.uploadParts objectName, .headRequest objectName], storeCarReturnedCid head)

/-- The synthesized pin entry of a status record (lines 377-382). -/
structure Pin where
  cid : String
  name : String
  status : String
  created : Nat
deriving DecidableEq

/-- Normalized record returned by `status` (lines 373-384). -/
structure StatusResult where
  cid : String
  size : Int
  deals : List String
  pin : Pin
  created : Nat
deriving DecidableEq

/-- Embedding of `FilebaseClient.status` (lines 321-385) as a function
of the head-object response: the source's three sequential checks
(`cid` tag, numeric `ContentLength`, defined `LastModified`) followed
by construction of the normalized record. -/
def FilebaseClient.status (head : HeadObjectResponse) : Except String StatusResult :=
  match metadataCid head with
  | none => .error "No CID Returned from Remote"
  | some c =>
    match head.contentLength with
    | none => .error "Invalid Content Length"
    | some len =>
      match head.lastModified with
      | none => .error "Invalid Date"
      | some displayDate =>
        .ok ⟨c, len, [], ⟨c, c, "pinned", displayDate⟩, displayDate⟩

/- ===================================================================
   onComplete wiring — src/lib.js lines 214-215.

     const readableStream = stream.Readable.from(car)
     onComplete && readableStream.on('finish', onComplete)
   =================================================================== -/

/-- The event name `storeCar` registers the `onComplete` listener for
(line 215). -/
def onCompleteRegisteredEvent : String := "finish"

/-- Modelled from the spec: the stream consumed by the uploader is the
Readable produced by `stream.Readable.from(car)` (an external Node.js
collaborator).  Per Node's stream interface a Readable emits `data`
events followed by `end` and `close` when fully consumed; the `finish`
event belongs to Writable streams and is never emitted by a Readable. -/
def readableLifecycleEvents : List String := ["data", "end", "close"]

/-- Number of times the registered `onComplete` listener fires during
the stream's lifecycle. -/
def onCompleteInvocations : Nat :=
  (readableLifecycleEvents.filter fun e => e == onCompleteRegisteredEvent).length

/- ===================================================================
   DAG packer model and packCar — src/lib.js lines 773-779; encodeBlob
   — lines 504-512; encodeDirectory — lines 539-557; storeBlob — lines
   158-169; storeDirectory — lines 266-280.

   The `pack` function itself lives in the external `ipfs-car`
   dependency; it is modelled from the spec (§4.2): split each input
   stream's concatenated bytes into fixed-size chunks, hash each chunk
   into a leaf block stored in the Content Store, link multi-chunk
   streams under one root node, and (when wrapping) link the per-file
   roots under a directory node.  The hash is an abstract parameter
   `h`; bytes are natural numbers.  What matters for the claims is (a)
   the output depends only on the concatenated bytes and the fixed
   parameters, and (b) packing writes its blocks to the blockstore.
   =================================================================== -/

/-- A named input file: a name and a byte stream (list of chunks). -/
structure FileInput where
  name : String
  content : List (List Nat)

/-- Accumulator-style fixed-size rechunker (structural recursion so
that concrete witness inputs evaluate in the kernel). -/
def rechunkAux (n : Nat) : List Nat → List Nat → Nat → List (List Nat)
  | [], acc, _ => [acc.reverse]
  | b :: rest, acc, k =>
    if k = 0 then acc.reverse :: rechunkAux n rest [b] (n - 1)
    else rechunkAux n rest (b :: acc) (k - 1)

/-- Split a byte sequence into chunks of at most `n` bytes. -/
def rechunk (n : Nat) (bytes : List Nat) : List (List Nat) :=
  match bytes with
  | [] => []
  | b :: rest => rechunkAux n rest [b] (n - 1)

/-- Modelled from the spec: the importer's fixed chunk size (the
default 256 KiB chunking policy of the external `ipfs-car` packer). -/
def chunkSize : Nat := 262144

/-- Modelled from the spec: pack one logical byte stream (§4.2 steps
1-2).  Returns the stream's root CID and the blocks written to the
Content Store.  A zero-byte stream yields a single empty leaf block. -/
def packStream (h : List Nat → Nat) (bytes : List Nat) : Nat × List (Nat × List Nat) :=
  match rechunk chunkSize bytes with
  | [] => (h [], [(h [], [])])
  | [c] => (h c, [(h c, c)])
  | cs =>
    let leafBlocks := cs.map fun c => (h c, c)
    let linkBytes := cs.map h
    (h linkBytes, leafBlocks ++ [(h linkBytes, linkBytes)])

/-- The data each named input contributes to the pack: its path and
its concatenated bytes. -/
def fileEntries (files : List FileInput) : List (String × List Nat) :=
  files.map fun f => (f.name, f.content.flatten)

/-- Modelled from the spec: directory-wrapped pack (§4.2 step 3) —
pack each named entry, then link all per-file roots under one
directory node whose block is also written to the Content Store. -/
def packDirEntries (h : List Nat → Nat) (entries : List (String × List Nat)) :
    Nat × List (Nat × List Nat) :=
  let filePacks := entries.map fun e => (e.1, packStream h e.2)
  let dirBytes := (filePacks.map fun p => p.1.length) ++ (filePacks.map fun p => p.2.1)
  (h dirBytes, (filePacks.map fun p => p.2.2).flatten ++ [(h dirBytes, dirBytes)])

/-- Embedding of `packCar` (src/lib.js lines 773-779): runs the
external `pack` with the fixed parameters `rawLeaves: false`,
`cidVersion: 0` and the given `wrapWithDirectory` flag, yielding the
root CID and the block set written to the blockstore. -/
def packCar (h : List Nat → Nat) (wrapWithDirectory : Bool) (input : List FileInput) :
    Nat × List (Nat × List Nat) :=
  if wrapWithDirectory then packDirEntries h (fileEntries input)
  else packStream h ((input.map fun f => f.content.flatten).flatten)

/-- Embedding of `FilebaseClient.encodeBlob` (lines 504-512): the
zero-size check runs first, so on a zero-length blob no block is ever
produced; otherwise the blob is packed unwrapped.  Returns the result
together with the blocks written to the blockstore. -/
def FilebaseClient.encodeBlob (h : List Nat → Nat) (blob : List (List Nat)) :
    Except String Nat × List (Nat × List Nat) :=
  if blob.flatten.length = 0 then
    (.error "Content size is 0, make sure to provide some content", [])
  else
    let p := packCar h false [⟨"blob", blob⟩]
    (.ok p.1, p.2)

/-- Embedding of `FilebaseClient.encodeDirectory` (lines 539-557): the
total size accumulates while `packCar` consumes the input, so the
`await packCar(...)` completes — writing its blocks — before the
zero-size check runs. -/
def FilebaseClient.encodeDirectory (h : List Nat → Nat) (files : List FileInput) :
    Except String Nat × List (Nat × List Nat) :=
  let packed := packCar h true files
  if (files.map fun f => f.content.flatten.length).sum = 0 then
    (.error "Total size of files should exceed 0, make sure to provide some content",
      packed.2)
  else
    (.ok packed.1, packed.2)

/-- Embedding of `FilebaseClient.storeBlob` (lines 158-169): encode the
blob, upload the car under `objectName || cid.toString()`, and return
`storeCar`'s result — the remote-reported CID. -/
def FilebaseClient.storeBlob (h : List Nat → Nat) (blob : List (List Nat))
    (objectName : Option String) (head : HeadObjectResponse) : Except String String :=
  match (FilebaseClient.encodeBlob h blob).1 with
  | .error e => .error e
  | .ok cid => (FilebaseClient.storeCar (objectName.getD (toString cid)) head).2

/-- Embedding of `FilebaseClient.storeDirectory` (lines 266-280):
encode the directory, upload the car, but return the locally computed
`cidString`, discarding `storeCar`'s returned value. -/
def FilebaseClient.storeDirectory (h : List Nat → Nat) (files : List FileInput)
    (objectName : Option String) (head : HeadObjectResponse) : Except String String :=
  match (FilebaseClient.encodeDirectory h files).1 with
  | .error e => .error e
  | .ok cid =>
    match (FilebaseClient.storeCar (objectName.getD (toString cid)) head).2 with
    | .error e => .error e
    | .ok _stored => .ok (toString cid)

/- ===================================================================
   Shared class-level state of the static methods — src/lib.js lines
   188-253.

   `FilebaseClient.storeCar` is a static method, so `this` inside it is
   the class object shared by every call.  The call's prologue writes
   `this.bucket = ...` (lines 191/204) and reads it back for the upload
   parameters (line 219) within the same synchronous segment; after the
   `await parallelUploads3.done()` suspension it reads `this.bucket`
   again for the `HeadObjectCommand` (line 244).  The model runs two
   calls (with buckets `myBucket`) as two-step atomic segments over the
   shared cell, under an arbitrary interleaving schedule.
   =================================================================== -/

/-- Per-call observation of one static `storeCar` invocation: its own
bucket argument, its program counter (0 = not started, 1 = suspended at
the upload await, 2 = head request issued), and the buckets actually
used by its upload parameters and its head request. -/
structure UploadCallState where
  myBucket : String
  pc : Nat
  uploadBucket : Option String
  headBucket : Option String
deriving DecidableEq

/-- Shared class object plus the two in-flight calls. -/
structure StoreCarSystem where
  sharedBucket : Option String
  callA : UploadCallState
  callB : UploadCallState
deriving DecidableEq

/-- One atomic segment of a call: the prologue writes the shared
`this.bucket` and immediately reads it for the upload parameters; the
post-await segment reads the current shared `this.bucket` for the head
request. -/
def stepCall (shared : Option String) (c : UploadCallState) :
    Option String × UploadCallState :=
  if c.pc = 0 then
    (some c.myBucket, { c with pc := 1, uploadBucket := some c.myBucket })
  else if c.pc = 1 then
    (shared, { c with pc := 2, headBucket := shared })
  else
    (shared, c)

/-- Run one scheduled segment of call A (`false`) or call B (`true`). -/
def stepSystem (s : StoreCarSystem) (who : Bool) : StoreCarSystem :=
  if who then
    { s with sharedBucket := (stepCall s.sharedBucket s.callB).1,
             callB := (stepCall s.sharedBucket s.callB).2 }
  else
    { s with sharedBucket := (stepCall s.sharedBucket s.callA).1,
             callA := (stepCall s.sharedBucket s.callA).2 }

/-- Two fresh static `storeCar` calls with buckets `bA` and `bB` over
the not-yet-written shared class state. -/
def initSystem (bA bB : String) : StoreCarSystem :=
  ⟨none, ⟨bA, 0, none, none⟩, ⟨bB, 0, none, none⟩⟩

/-- Execute an interleaving schedule of the two calls' segments. -/
def runSchedule (bA bB : String) (sched : List Bool) : StoreCarSystem :=
  sched.foldl stepSystem (initSystem bA bB)

/-- Invariant of one call: its bucket argument is fixed and its upload
parameters, once built, name that bucket. -/
def callInv (b : String) (c : UploadCallState) : Prop :=
  c.myBucket = b ∧ (c.uploadBucket = none ∨ c.uploadBucket = some b)

/-- Invariant of the two-call system. -/
def sysInv (bA bB : String) (s : StoreCarSystem) : Prop :=
  callInv bA s.callA ∧ callInv bB s.callB

/- ===================================================================
   Theorems.  Helper lemmas first, then one theorem per claim (with
   counterexamples and witnesses where required).
   =================================================================== -/

/-- On an all-numeric tick list the handler succeeds and emits exactly
the successive differences. -/
theorem processTicks_map_some (ls : List ℚ) :
    ∀ s, processTicks (ls.map some) s = .ok (progressDeltas s ls) := by
  induction ls with
  | nil => intro s; rfl
  | cons l rest ih => intro s; simp [processTicks, progressDeltas, ih l]

/-- The emitted differences telescope: their sum is the last cumulative
value minus the initial accumulator. -/
theorem progressDeltas_sum (ls : List ℚ) :
    ∀ s, (progressDeltas s ls).sum = ls.getLast?.getD s - s := by
  induction ls with
  | nil => intro s; simp [progressDeltas]
  | cons l rest ih =>
    intro s
    cases rest with
    | nil => simp [progressDeltas]
    | cons l2 r2 =>
      cases h : (l2 :: r2).getLast? with
      | none => simp [List.getLast?_eq_none_iff] at h
      | some x =>
        have h1 : (progressDeltas s (l :: l2 :: r2)).sum
            = (l - s) + (progressDeltas l (l2 :: r2)).sum := by
          simp only [progressDeltas, List.sum_cons]
        rw [h1, ih l, List.getLast?_cons_cons, h, Option.getD_some, Option.getD_some]
        ring

/-- If the cumulative values never drop below the running accumulator,
every emitted difference is nonnegative. -/
theorem progressDeltas_nonneg (ls : List ℚ) :
    ∀ s, List.Chain' (· ≤ ·) (s :: ls) → ∀ v ∈ progressDeltas s ls, 0 ≤ v := by
  induction ls with
  | nil => intro s _ v hv; simp [progressDeltas] at hv
  | cons l rest ih =>
    intro s hc v hv
    rw [List.chain'_cons] at hc
    simp only [progressDeltas, List.mem_cons] at hv
    rcases hv with rfl | hv
    · linarith [hc.1]
    · exact ih l hc.2 v hv

/-- The handler completes without throwing exactly when every tick
carries a numeric `loaded` value. -/
theorem processTicks_ok_iff (ticks : List (Option ℚ)) :
    ∀ s, (∃ out, processTicks ticks s = .ok out) ↔ ticks.all Option.isSome = true := by
  induction ticks with
  | nil => intro s; simp [processTicks]
  | cons t rest ih =>
    intro s
    cases t with
    | none => simp [processTicks]
    | some l =>
      rw [List.all_cons]
      simp only [Option.isSome_some, Bool.true_and]
      rw [← ih l]
      constructor
      · rintro ⟨out, hout⟩
        cases hrec : processTicks rest l with
        | error e => simp [processTicks, hrec] at hout
        | ok o => exact ⟨o, rfl⟩
      · rintro ⟨out, hout⟩
        exact ⟨(l - s) :: out, by simp [processTicks, hout]⟩

/-- C1, counterexample: the transport reports the numeric,
non-decreasing cumulative values 0 then 5 for an archive of 5 bytes
(the final cumulative value is the full length).  Because `storedBytes`
is initialised to `0.01` (src/lib.js line 230) rather than `0`, the
first callback value `0 - 0.01` is negative and the values sum to
`5 - 0.01`, not the total archive byte length. -/
theorem C1_counterexample :
    FilebaseClient.storeCarProgress [some 0, some 5] = .ok [-(1/100), 5] ∧
    (-(1/100) : ℚ) < 0 ∧
    [-(1/100), (5 : ℚ)].sum ≠ 5 := by
  refine ⟨?_, by norm_num, by norm_num⟩
  norm_num [FilebaseClient.storeCarProgress, processTicks]

/-- C1 (corrected): for a transport reporting only numeric cumulative
values that are non-decreasing and never below the initial accumulator
`0.01`, the handler succeeds, every value passed to `onStoredChunk` is
nonnegative, and the values sum to the final cumulative loaded value
minus `0.01` — hence total archive length minus `0.01` once the upload
completes, not the total exactly. -/
theorem C1_theorem (ls : List ℚ) (h : List.Chain' (· ≤ ·) ((1/100 : ℚ) :: ls)) :
    FilebaseClient.storeCarProgress (ls.map some) = .ok (progressDeltas (1/100) ls) ∧
    (∀ v ∈ progressDeltas (1/100) ls, 0 ≤ v) ∧
    (progressDeltas (1/100) ls).sum = ls.getLast?.getD (1/100) - 1/100 :=
  ⟨processTicks_map_some ls (1/100),
   progressDeltas_nonneg ls (1/100) h,
   progressDeltas_sum ls (1/100)⟩

/-- C1, witness: the corrected statement at the concrete tick list
`[1, 2]`, whose emitted values are `[0.99, 1]`, all nonnegative,
summing to `2 - 0.01`. -/
theorem C1_witness :
    List.Chain' (· ≤ ·) ((1/100 : ℚ) :: [1, 2]) ∧
    progressDeltas (1/100) [1, 2] = [99/100, 1] ∧
    FilebaseClient.storeCarProgress ([(1 : ℚ), 2].map some)
      = .ok (progressDeltas (1/100) [1, 2]) ∧
    (∀ v ∈ progressDeltas (1/100) [1, 2], 0 ≤ v) ∧
    (progressDeltas (1/100) [1, 2]).sum = [(1 : ℚ), 2].getLast?.getD (1/100) - 1/100 := by
  have hch : List.Chain' (· ≤ ·) ((1/100 : ℚ) :: [1, 2]) := by
    simp only [List.chain'_cons, List.chain'_singleton, and_true]
    norm_num
  have hmain := C1_theorem [1, 2] hch
  exact ⟨hch, by norm_num [progressDeltas], hmain.1, hmain.2.1, hmain.2.2⟩

/-- C2, counterexample: the transport reports the numeric cumulative
values 5 then 3 — the second is strictly smaller than the first.  The
claim demands a fatal error; instead the handler succeeds and invokes
the callback with the negative value `-2`. -/
theorem C2_counterexample :
    FilebaseClient.storeCarProgress [some 5, some 3] = .ok [499/100, -2] ∧
    ((-2 : ℚ) < 0) := by
  refine ⟨?_, by norm_num⟩
  norm_num [FilebaseClient.storeCarProgress, processTicks]

/-- C2 (corrected): only a non-numeric `loaded` value is fatal — the
handler succeeds exactly when every tick is numeric, so a strictly
decreasing cumulative value is not detected and the callback is
invoked with the (negative) difference, as on the ticks 5 then 3. -/
theorem C2_theorem :
    (∀ ticks : List (Option ℚ),
      (∃ out, FilebaseClient.storeCarProgress ticks = .ok out)
        ↔ ticks.all Option.isSome = true) ∧
    FilebaseClient.storeCarProgress [some 5, some 3] = .ok [499/100, -2] := by
  refine ⟨fun ticks => processTicks_ok_iff ticks (1/100), ?_⟩
  norm_num [FilebaseClient.storeCarProgress, processTicks]

/-- C3, counterexample: a directory holding one zero-byte file.  The
encode fails with the encoding error, as the claim demands, but only
after `packCar` has completed: the blockstore trace is nonempty (the
packer has already written the empty leaf and the wrapping directory
node), contradicting "before any block is written". -/
theorem C3_counterexample :
    (FilebaseClient.encodeDirectory (fun l => l.length) [⟨"a", [[]]⟩]).1
      = .error "Total size of files should exceed 0, make sure to provide some content" ∧
    (FilebaseClient.encodeDirectory (fun l => l.length) [⟨"a", [[]]⟩]).2 ≠ [] := by
  exact ⟨rfl, by decide⟩

/-- C3 (corrected): `encodeBlob` rejects a zero-length blob before any
block is written (its blockstore trace is empty), but `encodeDirectory`
raises the zero-size error only after `packCar` has run, so the
packer's blocks have already been written to the blockstore when the
failure surfaces.  Neither path performs any network interaction (the
encode models have no network effects at all). -/
theorem C3_theorem :
    (∀ (hf : List Nat → Nat) (blob : List (List Nat)), blob.flatten.length = 0 →
      FilebaseClient.encodeBlob hf blob
        = (.error "Content size is 0, make sure to provide some content", [])) ∧
    (∀ (hf : List Nat → Nat) (files : List FileInput),
      (files.map fun f => f.content.flatten.length).sum = 0 →
      (FilebaseClient.encodeDirectory hf files).1
        = .error "Total size of files should exceed 0, make sure to provide some content" ∧
      (FilebaseClient.encodeDirectory hf files).2 = (packCar hf true files).2) := by
  constructor
  · intro hf blob hz
    simp [FilebaseClient.encodeBlob, hz]
  · intro hf files hz
    unfold FilebaseClient.encodeDirectory
    rw [if_pos hz]
    exact ⟨rfl, rfl⟩

/-- C3, witness: the corrected statement at a zero-length blob and at a
directory whose single file has no content. -/
theorem C3_witness :
    ([[], []] : List (List Nat)).flatten.length = 0 ∧
    FilebaseClient.encodeBlob (fun l => l.sum) [[], []]
      = (.error "Content size is 0, make sure to provide some content", []) ∧
    (([⟨"f", []⟩] : List FileInput).map fun f => f.content.flatten.length).sum = 0 ∧
    (FilebaseClient.encodeDirectory (fun l => l.sum) [⟨"f", []⟩]).1
      = .error "Total size of files should exceed 0, make sure to provide some content" ∧
    (FilebaseClient.encodeDirectory (fun l => l.sum) [⟨"f", []⟩]).2
      = (packCar (fun l => l.sum) true [⟨"f", []⟩]).2 :=
  ⟨by decide, C3_theorem.1 _ _ (by decide), by decide,
   (C3_theorem.2 _ _ (by decide)).1, (C3_theorem.2 _ _ (by decide)).2⟩

/-- C4 (confirmed): after the parts complete, `storeCar` issues a
head-metadata request for the same object key; a response without a
`cid` metadata tag yields the missing-remote-CID error, and otherwise
the call returns the remote tag verbatim.  The embedded `storeCar`
never receives the locally computed root, so the returned string is
the remote store's, never the local root (see `C10_theorem` for the
contrast with `storeDirectory`). -/
theorem C4_theorem (objectName : String) (head : HeadObjectResponse) :
    (FilebaseClient.storeCar objectName head).1
      = [.uploadParts objectName, .headRequest objectName] ∧
    (match metadataCid head with
     | none => (FilebaseClient.storeCar objectName head).2
         = .error "No CID Returned from Remote"
     | some c => (FilebaseClient.storeCar objectName head).2 = .ok c) := by
  refine ⟨rfl, ?_⟩
  cases hm : metadataCid head with
  | none => simp [FilebaseClient.storeCar, storeCarReturnedCid, hm]
  | some c => simp [FilebaseClient.storeCar, storeCarReturnedCid, hm]

/-- A JavaScript split never yields an empty array. -/
theorem jsSplit_ne_nil (sep : Char) : ∀ cs, jsSplit sep cs ≠ [] := by
  intro cs
  cases cs with
  | nil => simp [jsSplit]
  | cons c rest =>
    simp only [jsSplit]
    by_cases hc : c = sep
    · simp [hc]
    · simp only [if_neg hc]
      cases jsSplit sep rest with
      | nil => simp
      | cons hd tl => simp

/-- C5, counterexample: the array-form token `[undefined, undefined,
"bucket"]` has an unrecoverable access key and secret key, yet
`parseToken` accepts it (the array branch, src/lib.js lines 57-65,
checks only index 2) instead of failing with `Invalid Access Key` /
`Invalid Secret Key`. -/
theorem C5_counterexample :
    parseToken String.toList (.arr [none, none, some "bucket"])
      = .ok ⟨[none, none, some "bucket"], "bucket"⟩ ∧
    jsIndex [none, none, some "bucket"] 0 = none ∧
    jsIndex [none, none, some "bucket"] 1 = none :=
  ⟨rfl, rfl, rfl⟩

/-- C5 (corrected): the guarantees are per form.  A string-form token
either fails with `Invalid Secret Key` or `No Bucket Found` (the
`Invalid Access Key` branch is unreachable, a split being nonempty) or
is accepted with all three fields recoverable.  An array-form token is
checked only for a defined bucket at index 2: a missing bucket fails
with `No Bucket Found`, but acceptance guarantees only the bucket —
an array with undefined access or secret key is accepted. -/
theorem C5_theorem (decode : String → List Char) (s : String) (t : List (Option String)) :
    (match parseToken decode (.str s) with
     | .error e => e = "Invalid Secret Key" ∨ e = "No Bucket Found"
     | .ok r => (jsIndex r.credentials 0).isSome = true ∧
                (jsIndex r.credentials 1).isSome = true ∧
                jsIndex r.credentials 2 = some r.bucket) ∧
    (match parseToken decode (.arr t) with
     | .error e => e = "No Bucket Found" ∧ jsIndex t 2 = none
     | .ok r => r.credentials = t ∧ jsIndex t 2 = some r.bucket) := by
  constructor
  · obtain ⟨hd, tl, hsplit⟩ := List.exists_cons_of_ne_nil (jsSplit_ne_nil ':' (decode s))
    cases tl with
    | nil => simp [parseToken, hsplit]
    | cons hd2 tl2 =>
      cases tl2 with
      | nil => simp [parseToken, hsplit]
      | cons hd3 tl3 => simp [parseToken, hsplit, jsIndex]
  · cases hj : jsIndex t 2 with
    | none => simp [parseToken, hj]
    | some b => simp [parseToken, hj]

/-- C6: the source registers `onComplete` for the `finish` event of the
Readable stream feeding the upload (src/lib.js line 215), but a
Readable's lifecycle emits only `data`, `end` and `close` — `finish`
is a Writable-stream event.  The listener therefore fires zero times,
never the exactly-once the claim (and spec §4.5) requires. -/
theorem C6_theorem : onCompleteInvocations = 0 := by decide

/-- C7 (confirmed): `status` returns the normalized record — remote
`cid` tag, content length, empty deal list, and a synthesized pin
entry with status `pinned` dated to the remote last-modified timestamp
— whenever the head response carries all three fields, and fails with
one of the incomplete-remote-record errors whenever any is missing. -/
theorem C7_theorem :
    (∀ (head : HeadObjectResponse) (c : String) (len : Int) (lm : Nat),
      metadataCid head = some c → head.contentLength = some len →
      head.lastModified = some lm →
      FilebaseClient.status head = .ok ⟨c, len, [], ⟨c, c, "pinned", lm⟩, lm⟩) ∧
    (∀ head : HeadObjectResponse,
      (metadataCid head = none ∨ head.contentLength = none ∨ head.lastModified = none) →
      ∃ e, FilebaseClient.status head = .error e ∧
        (e = "No CID Returned from Remote" ∨ e = "Invalid Content Length" ∨
         e = "Invalid Date")) := by
  constructor
  · intro head c len lm h1 h2 h3
    simp [FilebaseClient.status, h1, h2, h3]
  · intro head hmiss
    cases hm : metadataCid head with
    | none =>
      exact ⟨"No CID Returned from Remote", by simp [FilebaseClient.status, hm], Or.inl rfl⟩
    | some c =>
      cases hcl : head.contentLength with
      | none =>
        exact ⟨"Invalid Content Length", by simp [FilebaseClient.status, hm, hcl],
          Or.inr (Or.inl rfl)⟩
      | some len =>
        cases hlm : head.lastModified with
        | none =>
          exact ⟨"Invalid Date", by simp [FilebaseClient.status, hm, hcl, hlm],
            Or.inr (Or.inr rfl)⟩
        | some lm => rcases hmiss with h | h | h <;> simp_all

/-- C7, witness: a complete head response yields the normalized record
and an empty response yields an incomplete-remote-record error. -/
theorem C7_witness :
    metadataCid ⟨some [("cid", "bafy")], some 42, some 7⟩ = some "bafy" ∧
    FilebaseClient.status ⟨some [("cid", "bafy")], some 42, some 7⟩
      = .ok ⟨"bafy", 42, [], ⟨"bafy", "bafy", "pinned", 7⟩, 7⟩ ∧
    (∃ e, FilebaseClient.status ⟨none, none, none⟩ = .error e ∧
      (e = "No CID Returned from Remote" ∨ e = "Invalid Content Length" ∨
       e = "Invalid Date")) :=
  ⟨rfl, C7_theorem.1 _ "bafy" 42 7 rfl rfl rfl, C7_theorem.2 _ (Or.inl rfl)⟩

/-- C8, counterexample: two static `storeCar` calls with buckets
`bucket-a` and `bucket-b`.  Under the interleaving A-prologue,
B-prologue, A-head, call A's head request reads the shared class-level
`this.bucket` last written by call B, so A's head request targets
`bucket-b` — call B's execution changed which bucket call A uses
(sequentially, A would target its own `bucket-a`, as the third
conjunct shows). -/
theorem C8_counterexample :
    (runSchedule "bucket-a" "bucket-b" [false, true, false]).callA.headBucket
      = some "bucket-b" ∧
    "bucket-b" ≠ "bucket-a" ∧
    (runSchedule "bucket-a" "bucket-b" [false, false]).callA.headBucket
      = some "bucket-a" :=
  ⟨rfl, by decide, rfl⟩

/-- The per-call invariant survives one scheduled segment. -/
theorem stepCall_inv (b : String) (sh : Option String) (c : UploadCallState)
    (h : callInv b c) : callInv b (stepCall sh c).2 := by
  unfold stepCall callInv at *
  by_cases h0 : c.pc = 0
  · simp [h0, h.1]
  · by_cases h1 : c.pc = 1
    · simp [h0, h1, h.1, h.2]
    · simp [h0, h1, h.1, h.2]

/-- The system invariant survives one scheduled segment. -/
theorem stepSystem_inv (bA bB : String) (s : StoreCarSystem) (w : Bool)
    (h : sysInv bA bB s) : sysInv bA bB (stepSystem s w) := by
  cases w with
  | false => exact ⟨stepCall_inv bA _ _ h.1, h.2⟩
  | true => exact ⟨h.1, stepCall_inv bB _ _ h.2⟩

/-- Every reachable state of the two-call system satisfies the
invariant. -/
theorem runSchedule_inv (bA bB : String) (sched : List Bool) :
    sysInv bA bB (runSchedule bA bB sched) := by
  have hinit : sysInv bA bB (initSystem bA bB) :=
    ⟨⟨rfl, Or.inl rfl⟩, ⟨rfl, Or.inl rfl⟩⟩
  unfold runSchedule
  generalize initSystem bA bB = s0 at hinit ⊢
  induction sched generalizing s0 with
  | nil => exact hinit
  | cons w rest ih => exact ih _ (stepSystem_inv bA bB s0 w hinit)

/-- C8 (corrected): the static methods do share mutable class-level
state (`this.bucket` of an unbound static call).  Each call's upload
parameters still name its own bucket under every interleaving, because
the write and that read share one synchronous segment; but the head
request after the `await` re-reads the shared cell, so the interleaved
schedule A, B, A makes call A's head request use call B's bucket. -/
theorem C8_theorem (bA bB : String) (sched : List Bool) :
    ((runSchedule bA bB sched).callA.uploadBucket = none ∨
     (runSchedule bA bB sched).callA.uploadBucket = some bA) ∧
    ((runSchedule bA bB sched).callB.uploadBucket = none ∨
     (runSchedule bA bB sched).callB.uploadBucket = some bB) ∧
    (runSchedule bA bB [false, true, false]).callA.headBucket = some bB := by
  have h := runSchedule_inv bA bB sched
  exact ⟨h.1.2, h.2.2, rfl⟩

/-- C9 (confirmed, spec-modelled packer): with the fixed parameters
`packCar` passes to the packer, the root CID and block set are a
function of the input's concatenated bytes (and, for wrapped packs, of
the entry names): byte-identical inputs — however their streams are
chunked — produce identical results on every run. -/
theorem C9_theorem (hf : List Nat → Nat) (s1 s2 : List (List Nat))
    (files1 files2 : List FileInput)
    (hs : s1.flatten = s2.flatten)
    (hfe : fileEntries files1 = fileEntries files2) :
    packCar hf false [⟨"blob", s1⟩] = packCar hf false [⟨"blob", s2⟩] ∧
    packCar hf true files1 = packCar hf true files2 := by
  have e1 : ∀ s : List (List Nat), packCar hf false [⟨"blob", s⟩]
      = packStream hf s.flatten := by
    intro s; simp [packCar]
  have e2 : ∀ fs : List FileInput, packCar hf true fs
      = packDirEntries hf (fileEntries fs) := by
    intro fs; simp [packCar]
  constructor
  · rw [e1, e1, hs]
  · rw [e2, e2, hfe]

/-- C9, witness: two chunkings of the same bytes (`[1,2]` as one chunk
against two chunks, and a directory file split `[3],[4]` against
`[3,4]`) pack to identical roots and block sets. -/
theorem C9_witness :
    ([[1, 2]] : List (List Nat)).flatten = ([[1], [2]] : List (List Nat)).flatten ∧
    fileEntries [⟨"a", [[3], [4]]⟩] = fileEntries [⟨"a", [[3, 4]]⟩] ∧
    packCar (fun l => l.sum) false [⟨"blob", [[1, 2]]⟩]
      = packCar (fun l => l.sum) false [⟨"blob", [[1], [2]]⟩] ∧
    packCar (fun l => l.sum) true [⟨"a", [[3], [4]]⟩]
      = packCar (fun l => l.sum) true [⟨"a", [[3, 4]]⟩] :=
  ⟨by decide, by decide,
   (C9_theorem (fun l => l.sum) [[1, 2]] [[1], [2]] [⟨"a", [[3], [4]]⟩] [⟨"a", [[3, 4]]⟩]
     (by decide) (by decide)).1,
   (C9_theorem (fun l => l.sum) [[1, 2]] [[1], [2]] [⟨"a", [[3], [4]]⟩] [⟨"a", [[3, 4]]⟩]
     (by decide) (by decide)).2⟩

/-- C10 (confirmed): on success `storeBlob` returns the CID string the
remote store's metadata tag reports, while `storeDirectory` returns
the locally computed root CID string and discards the remote value. -/
theorem C10_theorem (hf : List Nat → Nat) (blob : List (List Nat))
    (files : List FileInput) (objB objD : Option String)
    (head : HeadObjectResponse) (c : String)
    (hb : blob.flatten.length ≠ 0)
    (hdir : (files.map fun f => f.content.flatten.length).sum ≠ 0)
    (hc : metadataCid head = some c) :
    FilebaseClient.storeBlob hf blob objB head = .ok c ∧
    FilebaseClient.storeDirectory hf files objD head
      = .ok (toString (packCar hf true files).1) := by
  constructor
  · unfold FilebaseClient.storeBlob FilebaseClient.encodeBlob
    rw [if_neg hb]
    simp [FilebaseClient.storeCar, storeCarReturnedCid, hc]
  · unfold FilebaseClient.storeDirectory FilebaseClient.encodeDirectory
    rw [if_neg hdir]
    simp [FilebaseClient.storeCar, storeCarReturnedCid, hc]

/-- C10, witness: with the remote reporting `remotecid`, `storeBlob`
returns `remotecid` while `storeDirectory` returns the local root
string `2`, and the two differ. -/
theorem C10_witness :
    ([[9]] : List (List Nat)).flatten.length ≠ 0 ∧
    (([⟨"a", [[7]]⟩] : List FileInput).map fun f => f.content.flatten.length).sum ≠ 0 ∧
    metadataCid ⟨some [("cid", "remotecid")], none, none⟩ = some "remotecid" ∧
    FilebaseClient.storeBlob (fun l => l.length) [[9]] none
      ⟨some [("cid", "remotecid")], none, none⟩ = .ok "remotecid" ∧
    FilebaseClient.storeDirectory (fun l => l.length) [⟨"a", [[7]]⟩] none
      ⟨some [("cid", "remotecid")], none, none⟩
      = .ok (toString (packCar (fun l => l.length) true [⟨"a", [[7]]⟩]).1) ∧
    toString (packCar (fun l => l.length) true [⟨"a", [[7]]⟩]).1 = "2" ∧
    "remotecid" ≠ "2" :=
  ⟨by decide, by decide, rfl,
   (C10_theorem (fun l => l.length) [[9]] [⟨"a", [[7]]⟩] none none
     ⟨some [("cid", "remotecid")], none, none⟩ "remotecid"
     (by decide) (by decide) rfl).1,
   (C10_theorem (fun l => l.length) [[9]] [⟨"a", [[7]]⟩] none none
     ⟨some [("cid", "remotecid")], none, none⟩ "remotecid"
     (by decide) (by decide) rfl).2,
   rfl, by decide⟩
